import Mathlib

/-
  Verification development for the ICP robot-simulator repository
  (src/src/robots.h and src/obstacle.h).

  The development shallowly embeds the robot classes, the MainWindow scene
  logic and the scene-file parser.  C++ double values are modelled as real
  numbers (parsing of decimal literals goes through the rationals), C++ int
  values as integers.  Qt rendering, dialogs and signal wiring are out of
  scope; QGraphicsScene item lookup is modelled as rectangle-overlap search
  over the registered entities.  Member functions of the robot classes whose
  bodies are not part of the repository sources (detectObstacle, the remote
  command handlers) are modelled as oracles or from the specification text,
  as indicated at each definition.
-/

namespace RobotSim

/-! ### Scene-file parsing (MainWindow::parseAttributes and helpers)

The QString operations used by the parser are modelled structurally over
the character list of the string, so that they evaluate on concrete
inputs. -/

/-- Remove leading and trailing whitespace, modelling QString trimmed. -/
def trimChars (l : List Char) : List Char :=
  ((l.dropWhile Char.isWhitespace).reverse.dropWhile Char.isWhitespace).reverse

/-- QString trimmed. -/
def qTrim (s : String) : String :=
  String.mk (trimChars s.data)

/-- Split a character list at every occurrence of the separator; the empty
list yields one empty part, matching QString split. -/
def splitOnChar (sep : Char) : List Char → List (List Char)
  | [] => [[]]
  | c :: cs =>
    match splitOnChar sep cs with
    | [] => if c = sep then [[], []] else [[c]]
    | h :: t => if c = sep then [] :: h :: t else (c :: h) :: t

/-- QString split on a one-character separator. -/
def qSplit (s : String) (sep : Char) : List String :=
  (splitOnChar sep s.data).map String.mk

/-- Parse a nonempty all-digit character list as a natural number. -/
def digitsToNat? (l : List Char) : Option ℕ :=
  if l.isEmpty then none
  else if l.all Char.isDigit then
    some (l.foldl (fun n c => 10 * n + (c.toNat - Char.toNat '0')) 0)
  else none

/-- Model of QString toInt conversion: an optional sign followed by digits
parses to the number, anything else (including the empty string) yields 0. -/
def qToInt (s : String) : ℤ :=
  match s.data with
  | '-' :: rest =>
    match digitsToNat? rest with
    | some n => -(n : ℤ)
    | none => 0
  | '+' :: rest =>
    match digitsToNat? rest with
    | some n => (n : ℤ)
    | none => 0
  | l =>
    match digitsToNat? l with
    | some n => (n : ℤ)
    | none => 0

/-- Parse a plain decimal literal (optional minus sign, digits, optionally a
decimal point with digits on both sides) into a rational number.  Exponent
notation is not modelled. -/
def parseDecimal? (s : String) : Option ℚ :=
  let core : List Char → Option ℚ := fun t =>
    match splitOnChar '.' t with
    | [a] => (digitsToNat? a).map (fun n => (n : ℚ))
    | [a, b] =>
      match digitsToNat? a, digitsToNat? b with
      | some n, some f => some ((n : ℚ) + (f : ℚ) / (10 ^ b.length))
      | _, _ => none
    | _ => none
  match s.data with
  | '-' :: rest => (core rest).map (fun q => -q)
  | l => core l

/-- Model of QString toDouble conversion: a decimal literal parses to its
value, anything else (including the empty string) yields 0. -/
def qToDouble (s : String) : ℚ :=
  (parseDecimal? s).getD 0

/-- MainWindow::parseAttributes: split the attribute block into lines, drop
blank lines, and for every line of the exact shape key = value store the
trimmed value under the trimmed key.  The result is modelled as a total map
from keys to values in which absent keys are mapped to the empty string,
mirroring the default-constructed QString returned by QMap value lookup. -/
def parseAttributes (attributes : String) : String → String :=
  let rawLines := qSplit attributes '\n'
  let lines := rawLines.filter (fun l => !((qTrim l).data.isEmpty))
  lines.foldl
    (fun params line =>
      match qSplit line '=' with
      | [p1, p2] => fun k => if k = qTrim p1 then qTrim p2 else params k
      | _ => params)
    (fun _ => "")

/-- The numeric parameters MainWindow::processObject reads from a parsed
attribute block. -/
structure ObjectParams where
  x : ℤ
  y : ℤ
  speed : ℤ
  orientation : ℤ
  detectionRadius : ℚ
  avoidanceAngle : ℚ
  size : ℤ
  deriving DecidableEq

/-- The seven keys MainWindow::processObject recognizes. -/
def recognizedKeys : List String :=
  ["positionX", "positionY", "speed", "orientation",
   "detectionRadius", "avoidanceAngle", "width"]

/-- The parameter reads performed at the top of MainWindow::processObject,
expressed over an already parsed attribute map. -/
def extractFromFun (params : String → String) : ObjectParams :=
  { x := qToInt (params "positionX")
    y := qToInt (params "positionY")
    speed := qToInt (params "speed")
    orientation := qToInt (params "orientation")
    detectionRadius := qToDouble (params "detectionRadius")
    avoidanceAngle := qToDouble (params "avoidanceAngle")
    size := qToInt (params "width") }

/-- The parameter extraction of MainWindow::processObject applied to a raw
attribute block. -/
def extractParams (attributes : String) : ObjectParams :=
  extractFromFun (parseAttributes attributes)

/-! ### Robot state -/

/-- Robot rotation direction enum from robots.h. -/
inductive RotationDirection where
  | NoRotation
  | RotateLeft
  | RotateRight
  deriving DecidableEq

/-- Identifier of one robot update call performed during a tick:
the index of the robot inside its owning list. -/
inductive TickCall where
  | auto (i : Nat)
  | remote (i : Nat)
  deriving DecidableEq

/-- C++ conversion of a double to int: truncation toward zero. -/
noncomputable def truncToInt (x : ℝ) : ℤ :=
  if 0 ≤ x then ⌊x⌋ else ⌈x⌉

/-- The two normalization lines of AutonomousRobot::update: one conditional
plus-360 step for negative angles followed by one conditional minus-360 step
for angles of at least 360. -/
def normalizeOrientation (o : ℤ) : ℤ :=
  let o1 := if o < 0 then o + 360 else o
  if o1 ≥ 360 then o1 - 360 else o1

/-- State of an AutonomousRobot: base Robot fields plus the autonomous
fields of robots.h (the color field, which influences rendering only, is
omitted). -/
structure AutonomousRobot where
  positionX : ℝ
  positionY : ℝ
  speed : ℤ
  detectionRadius : ℝ
  avoidanceAngle : ℝ
  angle : ℤ
  orientation : ℤ

/-- The AutonomousRobot constructor: the orientation code 0/1/2/3 maps to
270/0/90/180 degrees, any other code maps to 0 degrees. -/
noncomputable def mkAutonomousRobot (posX posY : ℝ) (orient : ℤ)
    (detectRadius avoidAngle : ℝ) (speed : ℤ) : AutonomousRobot :=
  { positionX := posX
    positionY := posY
    speed := speed
    detectionRadius := detectRadius
    avoidanceAngle := avoidAngle
    angle := truncToInt avoidAngle
    orientation :=
      if orient = 0 then 270
      else if orient = 1 then 0
      else if orient = 2 then 90
      else if orient = 3 then 180
      else 0 }

/-- AutonomousRobot::update.  The body of detectObstacle is not part of the
repository sources, so its result is passed in as an oracle argument; the
avoidance addition stores an int, so the double sum is truncated toward
zero as in C++. -/
noncomputable def AutonomousRobot.update (r : AutonomousRobot)
    (detectObstacle : Bool) : AutonomousRobot :=
  let radAngle : ℝ := (r.orientation : ℝ) * Real.pi / 180
  let targetX : ℝ := r.positionX + (r.speed : ℝ) * Real.cos radAngle
  let targetY : ℝ := r.positionY + (r.speed : ℝ) * Real.sin radAngle
  let newX : ℝ := r.positionX + 0.1 * (targetX - r.positionX)
  let newY : ℝ := r.positionY + 0.1 * (targetY - r.positionY)
  let normed : ℤ := normalizeOrientation r.orientation
  let finalOrientation : ℤ :=
    if detectObstacle then truncToInt ((normed : ℝ) + r.avoidanceAngle)
    else normed
  { r with positionX := newX, positionY := newY,
           orientation := finalOrientation }

/-- State of a RemoteRobot: base Robot fields plus the remote fields of
robots.h (color omitted as above). -/
structure RemoteRobot where
  positionX : ℝ
  positionY : ℝ
  speed : ℤ
  detectionRadius : ℝ
  orientation : ℤ
  isMoving : Bool
  rotationDirection : RotationDirection

/-- The RemoteRobot constructor: no orientation parameter exists, the
orientation field keeps its initializer 0; isMoving keeps the base-class
initializer false and the rotation direction its initializer NoRotation. -/
def mkRemoteRobot (posX posY : ℝ) (speed : ℤ) (detectionRadius : ℝ) :
    RemoteRobot :=
  { positionX := posX
    positionY := posY
    speed := speed
    detectionRadius := detectionRadius
    orientation := 0
    isMoving := false
    rotationDirection := RotationDirection.NoRotation }

/-- Modelled from the spec: RemoteRobot stop is declared but not defined in
the repository sources; the spec states that stop sets moving to false. -/
def RemoteRobot.stop (r : RemoteRobot) : RemoteRobot :=
  { r with isMoving := false }

/-- Modelled from the spec: RemoteRobot moveForward is declared but not
defined in the repository sources; the spec states that moveForward sets
moving to true. -/
def RemoteRobot.moveForward (r : RemoteRobot) : RemoteRobot :=
  { r with isMoving := true }

/-- Modelled from the spec: RemoteRobot rotateRight is declared but not
defined in the repository sources; the spec states that the rotate commands
set the rotation intent, which the owning scheduler is to consume. -/
def RemoteRobot.rotateRight (r : RemoteRobot) : RemoteRobot :=
  { r with rotationDirection := RotationDirection.RotateRight }

/-- Modelled from the spec: RemoteRobot rotateLeft, see rotateRight. -/
def RemoteRobot.rotateLeft (r : RemoteRobot) : RemoteRobot :=
  { r with rotationDirection := RotationDirection.RotateLeft }

/-- RemoteRobot::update; the detectObstacle result is an oracle argument as
for the autonomous robot, and a positive detection calls stop. -/
noncomputable def RemoteRobot.update (r : RemoteRobot)
    (detectObstacle : Bool) : RemoteRobot :=
  let radAngle : ℝ := (r.orientation : ℝ) * Real.pi / 180
  let targetX : ℝ := r.positionX + (r.speed : ℝ) * Real.cos radAngle
  let targetY : ℝ := r.positionY + (r.speed : ℝ) * Real.sin radAngle
  let moved : RemoteRobot :=
    { r with positionX := r.positionX + 0.1 * (targetX - r.positionX),
             positionY := r.positionY + 0.1 * (targetY - r.positionY) }
  if detectObstacle then moved.stop else moved

/-! ### Obstacles and the scene registry (MainWindow) -/

/-- Modelled from the spec: the Obstacle constructor body is not part of the
repository sources; per the spec an obstacle is an axis-aligned square given
by its top-left corner and side length, matching the creation rectangle used
by MainWindow::createObstacle. -/
structure Obstacle where
  x : ℝ
  y : ℝ
  width : ℝ

/-- An axis-aligned rectangle given by top-left corner, width and height. -/
structure Rect where
  x : ℝ
  y : ℝ
  w : ℝ
  h : ℝ

/-- Two rectangles overlap when their intersection has positive area.  This
models the QGraphicsScene item search used by the placement checks. -/
def Rect.overlaps (a b : Rect) : Prop :=
  a.x < b.x + b.w ∧ b.x < a.x + a.w ∧ a.y < b.y + b.h ∧ b.y < a.y + a.h

/-- One graphics item registered in the scene. -/
inductive SceneItem where
  | auto (r : AutonomousRobot)
  | remote (r : RemoteRobot)
  | obst (o : Obstacle)

/-- Scene-space bounding region of an item: robots use the 40 by 40
bounding rectangle centred on their position (boundingRect of robots.h
translated by setPos), obstacles their square. -/
def SceneItem.rect : SceneItem → Rect
  | SceneItem.auto r => ⟨r.positionX - 20, r.positionY - 20, 40, 40⟩
  | SceneItem.remote r => ⟨r.positionX - 20, r.positionY - 20, 40, 40⟩
  | SceneItem.obst o => ⟨o.x, o.y, o.width, o.width⟩

/-- The dynamic cast to Robot used by the placement checks. -/
def SceneItem.isRobot : SceneItem → Bool
  | SceneItem.auto _ => true
  | SceneItem.remote _ => true
  | SceneItem.obst _ => false

/-- The dynamic cast to Obstacle used by the placement checks. -/
def SceneItem.isObstacle : SceneItem → Bool
  | SceneItem.auto _ => false
  | SceneItem.remote _ => false
  | SceneItem.obst _ => true

/-- The MainWindow state the claims depend on: the two robot lists, the
obstacles held by the scene, the selected remote robot (an index into the
remote list, modelling the selectedRobot pointer) and whether the update
timer is running. -/
structure MainWindow where
  autonomousRobots : List AutonomousRobot
  remoteRobots : List RemoteRobot
  obstacles : List Obstacle
  selectedRobot : Option Nat
  timerActive : Bool

/-- All items registered in the graphics scene. -/
def MainWindow.items (w : MainWindow) : List SceneItem :=
  w.autonomousRobots.map SceneItem.auto ++
    w.remoteRobots.map SceneItem.remote ++
    w.obstacles.map SceneItem.obst

/-- The conflict information gathered by the placement checks, recording
whether a robot and whether an obstacle occupies the requested area; it
determines which warning message is shown. -/
structure Conflict where
  robotFound : Bool
  obstacleFound : Bool
  deriving DecidableEq

open Classical in
/-- The QGraphicsScene items call of the placement checks: every registered
item whose bounding region overlaps the query rectangle. -/
noncomputable def MainWindow.foundItems (w : MainWindow) (area : Rect) :
    List SceneItem :=
  w.items.filter (fun it => decide (Rect.overlaps area it.rect))

/-- MainWindow::createObstacle after the dialog was accepted with the given
x, y and width: on overlap with any present item the scene is left unchanged
and a conflict message is produced, otherwise the obstacle is added. -/
noncomputable def MainWindow.createObstacle (w : MainWindow)
    (x y width : ℤ) : MainWindow × Option Conflict :=
  let area : Rect := ⟨(x : ℝ), (y : ℝ), (width : ℝ), (width : ℝ)⟩
  let found := w.foundItems area
  if found.isEmpty then
    ({ w with obstacles := w.obstacles ++ [⟨(x : ℝ), (y : ℝ), (width : ℝ)⟩] },
     none)
  else
    (w, some ⟨found.any SceneItem.isRobot, found.any SceneItem.isObstacle⟩)

/-- MainWindow::createRobot after the dialog was accepted: the creation
area is the 40 by 40 square centred on the requested position; on overlap
the scene is left unchanged and a conflict message is produced, otherwise a
robot of the requested type is constructed and appended to its list. -/
noncomputable def MainWindow.createRobot (w : MainWindow)
    (robotType orientation speed : ℤ) (detectionRadius : ℝ) (x y : ℝ)
    (avoidanceAngle : ℝ) : MainWindow × Option Conflict :=
  let area : Rect := ⟨x - 20, y - 20, 40, 40⟩
  let found := w.foundItems area
  if found.isEmpty then
    if robotType = 0 then
      ({ w with autonomousRobots := w.autonomousRobots ++
          [mkAutonomousRobot x y orientation detectionRadius avoidanceAngle
            speed] }, none)
    else
      ({ w with remoteRobots := w.remoteRobots ++
          [mkRemoteRobot x y speed detectionRadius] }, none)
  else
    (w, some ⟨found.any SceneItem.isRobot, found.any SceneItem.isObstacle⟩)

/-- MainWindow::processObject: build the entity named by the type string
from the extracted parameters and register it; no placement check is made.
Unknown type names leave the scene unchanged. -/
noncomputable def MainWindow.processObject (w : MainWindow) (type : String)
    (attributes : String) : MainWindow :=
  let p := extractParams attributes
  if type = "AutonomousRobot" then
    { w with autonomousRobots := w.autonomousRobots ++
        [mkAutonomousRobot (p.x : ℝ) (p.y : ℝ) p.orientation
          ((p.detectionRadius : ℚ) : ℝ) ((p.avoidanceAngle : ℚ) : ℝ)
          p.speed] }
  else if type = "RemoteRobot" then
    { w with remoteRobots := w.remoteRobots ++
        [mkRemoteRobot (p.x : ℝ) (p.y : ℝ) p.speed
          ((p.detectionRadius : ℚ) : ℝ)] }
  else if type = "Obstacle" then
    { w with obstacles := w.obstacles ++
        [⟨(p.x : ℝ), (p.y : ℝ), (p.size : ℝ)⟩] }
  else w

/-! ### The simulation tick (MainWindow::updateRobots) -/

/-- Apply a function to the list entry at the given index, if it exists. -/
def modifyAt (l : List α) (i : Nat) (f : α → α) : List α :=
  match l[i]? with
  | some a => l.set i (f a)
  | none => l

/-- MainWindow::rotateRobotRight: if a robot is selected and the timer is
running, the rotateRight command is issued to the selected robot. -/
def MainWindow.rotateRobotRight (w : MainWindow) : MainWindow :=
  match w.selectedRobot with
  | some j =>
    if w.timerActive then
      { w with remoteRobots := modifyAt w.remoteRobots j RemoteRobot.rotateRight }
    else w
  | none => w

/-- MainWindow::rotateRobotLeft, symmetric to rotateRobotRight. -/
def MainWindow.rotateRobotLeft (w : MainWindow) : MainWindow :=
  match w.selectedRobot with
  | some j =>
    if w.timerActive then
      { w with remoteRobots := modifyAt w.remoteRobots j RemoteRobot.rotateLeft }
    else w
  | none => w

/-- The rotation dispatch of the remote-robot loop body: on RotateRight the
rotateRobotRight slot is invoked, on RotateLeft the rotateRobotLeft slot,
otherwise nothing happens.  Both slots act on the selected robot. -/
def MainWindow.dispatchRotation (w : MainWindow) (dir : RotationDirection) :
    MainWindow :=
  if dir = RotationDirection.RotateRight then w.rotateRobotRight
  else if dir = RotationDirection.RotateLeft then w.rotateRobotLeft
  else w

/-- One iteration of the remote-robot loop of MainWindow::updateRobots for
list index i: read the rotation direction of robot i and dispatch the
corresponding MainWindow rotation slot (which acts on the selected robot),
then, if robot i is moving, call its update.  The returned list records the
robot update calls made. -/
noncomputable def MainWindow.remoteStep (w : MainWindow) (i : Nat)
    (detect : Bool) : MainWindow × List TickCall :=
  match w.remoteRobots[i]? with
  | none => (w, [])
  | some r =>
    let w1 := w.dispatchRotation r.rotationDirection
    match w1.remoteRobots[i]? with
    | none => (w1, [])
    | some r1 =>
      if r1.isMoving then
        ({ w1 with remoteRobots := w1.remoteRobots.set i (r1.update detect) },
         [TickCall.remote i])
      else (w1, [])

/-- The remote-robot loop of MainWindow::updateRobots: n iterations
starting at index i, threading the window state and collecting the robot
update calls in order. -/
noncomputable def MainWindow.remoteLoop (detectR : Nat → Bool) :
    Nat → Nat → MainWindow → MainWindow × List TickCall
  | 0, _, w => (w, [])
  | n + 1, i, w =>
    let s := w.remoteStep i (detectR i)
    let rest := MainWindow.remoteLoop detectR n (i + 1) s.1
    (rest.1, s.2 ++ rest.2)

/-- MainWindow::updateRobots, one simulation tick: update every autonomous
robot in list order, then run the remote-robot loop over the whole remote
list.  The detectObstacle oracles give each robot detection result by list
index.  The second component is the sequence of robot update calls made. -/
noncomputable def MainWindow.updateRobots (w : MainWindow)
    (detectA detectR : Nat → Bool) : MainWindow × List TickCall :=
  let w1 := { w with autonomousRobots :=
    w.autonomousRobots.mapIdx (fun i r => r.update (detectA i)) }
  let rest := MainWindow.remoteLoop detectR w1.remoteRobots.length 0 w1
  (rest.1,
   (List.range w.autonomousRobots.length).map TickCall.auto ++ rest.2)

/-- Run n simulation ticks; the oracles take the tick number first. -/
noncomputable def runTicks (detectA detectR : Nat → Nat → Bool) :
    Nat → MainWindow → MainWindow
  | 0, w => w
  | n + 1, w => runTicks detectA detectR n ((w.updateRobots (detectA n) (detectR n)).1)

/-! ### Geometry of one movement step and of the vision trapezoid -/

/-- The target point computed by both update bodies: the current position
displaced by speed units along the orientation converted to radians. -/
noncomputable def stepTarget (x y : ℝ) (speed orientation : ℤ) : ℝ × ℝ :=
  let radAngle : ℝ := (orientation : ℝ) * Real.pi / 180
  (x + (speed : ℝ) * Real.cos radAngle, y + (speed : ℝ) * Real.sin radAngle)

/-- The interpolated position computed by both update bodies: the current
position moved one tenth of the way to the target point. -/
noncomputable def stepPos (x y : ℝ) (speed orientation : ℤ) : ℝ × ℝ :=
  let t := stepTarget x y speed orientation
  (x + 0.1 * (t.1 - x), y + 0.1 * (t.2 - y))

/-- Euclidean distance between two points of the plane. -/
noncomputable def dist2D (p q : ℝ × ℝ) : ℝ :=
  Real.sqrt ((q.1 - p.1) ^ 2 + (q.2 - p.2) ^ 2)

/-- The point q lies strictly between p and r: p and r differ and q divides
the segment from p to r in some ratio strictly between 0 and 1. -/
def strictlyBetween (p q r : ℝ × ℝ) : Prop :=
  p ≠ r ∧ ∃ t : ℝ, 0 < t ∧ t < 1 ∧
    q.1 = p.1 + t * (r.1 - p.1) ∧ q.2 = p.2 + t * (r.2 - p.2)

/-- Robot::rotatePoint of robots.h: rotation of a point about the origin
by the given angle in radians. -/
noncomputable def rotatePoint (point : ℝ × ℝ) (angle : ℝ) : ℝ × ℝ :=
  (Real.cos angle * point.1 - Real.sin angle * point.2,
   Real.sin angle * point.1 + Real.cos angle * point.2)

/-- The four corners of the rendered field-of-vision trapezoid. -/
structure Trapezoid where
  baseLeft : ℝ × ℝ
  baseRight : ℝ × ℝ
  topRight : ℝ × ℝ
  topLeft : ℝ × ℝ

/-- The trapezoid computation shared verbatim by AutonomousRobot::paint and
RemoteRobot::paint: half the far-edge width is detectionRadius times the
tangent of pi over six, half the near-edge width is a quarter of that
clamped to a third of the robot radius 20, the corners sit at axial
distances 20 and detectionRadius plus 20 and are rotated about the robot
centre by the orientation in radians. -/
noncomputable def visionTrapezoid (orientation : ℤ) (detectionRadius : ℝ) :
    Trapezoid :=
  let radOrientation : ℝ := (orientation : ℝ) * Real.pi / 180
  let robotRadius : ℝ := 20
  let halfTopWidth : ℝ := detectionRadius * Real.tan (Real.pi / 6)
  let firstHalfBase : ℝ := halfTopWidth / 4
  let halfBaseWidth : ℝ :=
    if firstHalfBase > robotRadius / 3 then robotRadius / 3 else firstHalfBase
  { baseLeft := rotatePoint (robotRadius, -halfBaseWidth) radOrientation
    baseRight := rotatePoint (robotRadius, halfBaseWidth) radOrientation
    topRight :=
      rotatePoint (detectionRadius + robotRadius, halfTopWidth) radOrientation
    topLeft :=
      rotatePoint (detectionRadius + robotRadius, -halfTopWidth)
        radOrientation }

/-- Reference description of the update calls the remote-robot loop makes:
one call per moving robot, in list order, indexed from i. -/
def remoteCallsSpec : List RemoteRobot → Nat → List TickCall
  | [], _ => []
  | r :: rs, i =>
    (if r.isMoving then [TickCall.remote i] else []) ++
      remoteCallsSpec rs (i + 1)

/-- Two remote-robot states agree on everything except possibly the
rotation direction.  The rotation slots only touch the rotation direction,
so this relation is preserved by them. -/
def samePose (r r' : RemoteRobot) : Prop :=
  r'.positionX = r.positionX ∧ r'.positionY = r.positionY ∧
  r'.isMoving = r.isMoving ∧ r'.orientation = r.orientation ∧
  r'.speed = r.speed

/-! ### Concrete scenarios used by the closed statements below -/

/-- A sample obstacle with top-left corner at the origin and side 10. -/
def sampleObstacle : Obstacle := ⟨0, 0, 10⟩

/-- A scene holding only the sample obstacle. -/
def obstacleScene : MainWindow := ⟨[], [], [sampleObstacle], none, true⟩

/-- The attribute block of a scene-file Obstacle entry colliding with the
sample obstacle. -/
def obstacleAttrs : String := "positionX = 0\npositionY = 0\nwidth = 10"

/-- A stationary remote robot with a pending RotateRight intent. -/
def intentRobot : RemoteRobot :=
  ⟨0, 0, 5, 0, 0, false, RotationDirection.RotateRight⟩

/-- A scene in which the intent robot is also the selected robot and the
timer is running. -/
def intentScene : MainWindow := ⟨[], [intentRobot], [], some 0, true⟩

/-- A freshly constructed (hence stationary) remote robot. -/
def idleRobot : RemoteRobot := mkRemoteRobot 3 4 5 0

/-- A scene holding only the stationary remote robot. -/
def idleScene : MainWindow := ⟨[], [idleRobot], [], none, true⟩

/-- The stationary remote robot after the moveForward command. -/
def movingRobot : RemoteRobot := (mkRemoteRobot 3 4 5 0).moveForward

/-- A scene holding only the moving remote robot. -/
def movingScene : MainWindow := ⟨[], [movingRobot], [], none, true⟩

/-! ### Claim C10 -/

/-- C10: every RemoteControlled robot is created with orientation 0.  The
RemoteRobot constructor takes no orientation parameter and leaves the
orientation field at its initializer 0, and a RemoteRobot block processed
from a scene file appends exactly the robot built by that constructor, so
the parsed orientation value has no effect on the created heading. -/
theorem c10_remote_created_with_orientation_zero :
    (∀ (posX posY : ℝ) (speed : ℤ) (detectionRadius : ℝ),
      (mkRemoteRobot posX posY speed detectionRadius).orientation = 0) ∧
    (∀ (w : MainWindow) (attributes : String),
      (w.processObject "RemoteRobot" attributes).remoteRobots =
        w.remoteRobots ++
          [mkRemoteRobot ((extractParams attributes).x : ℝ)
            ((extractParams attributes).y : ℝ)
            (extractParams attributes).speed
            (((extractParams attributes).detectionRadius : ℚ) : ℝ)]) := by
  constructor
  · intro posX posY speed detectionRadius
    rfl
  · intro w attributes
    rfl

/-! ### Claim C8 -/

/-- C8: a recognized numeric key that is absent from a scene-file block is
read as the empty string by the attribute map and converted to numeric
zero, for each of the seven recognized keys, and the parameter extraction
of processObject depends only on the values of the recognized keys, so
unknown keys are ignored. -/
theorem c8_missing_fields_parse_as_zero (attributes : String) :
    (parseAttributes attributes "positionX" = "" →
      (extractParams attributes).x = 0) ∧
    (parseAttributes attributes "positionY" = "" →
      (extractParams attributes).y = 0) ∧
    (parseAttributes attributes "speed" = "" →
      (extractParams attributes).speed = 0) ∧
    (parseAttributes attributes "orientation" = "" →
      (extractParams attributes).orientation = 0) ∧
    (parseAttributes attributes "detectionRadius" = "" →
      (extractParams attributes).detectionRadius = 0) ∧
    (parseAttributes attributes "avoidanceAngle" = "" →
      (extractParams attributes).avoidanceAngle = 0) ∧
    (parseAttributes attributes "width" = "" →
      (extractParams attributes).size = 0) ∧
    (∀ f g : String → String, (∀ k ∈ recognizedKeys, f k = g k) →
      extractFromFun f = extractFromFun g) := by
  refine ⟨fun h => ?_, fun h => ?_, fun h => ?_, fun h => ?_, fun h => ?_,
    fun h => ?_, fun h => ?_, fun f g hfg => ?_⟩
  · show qToInt (parseAttributes attributes "positionX") = 0
    rw [h]; decide
  · show qToInt (parseAttributes attributes "positionY") = 0
    rw [h]; decide
  · show qToInt (parseAttributes attributes "speed") = 0
    rw [h]; decide
  · show qToInt (parseAttributes attributes "orientation") = 0
    rw [h]; decide
  · show qToDouble (parseAttributes attributes "detectionRadius") = 0
    rw [h]; decide
  · show qToDouble (parseAttributes attributes "avoidanceAngle") = 0
    rw [h]; decide
  · show qToInt (parseAttributes attributes "width") = 0
    rw [h]; decide
  · have h1 := hfg "positionX" (by decide)
    have h2 := hfg "positionY" (by decide)
    have h3 := hfg "speed" (by decide)
    have h4 := hfg "orientation" (by decide)
    have h5 := hfg "detectionRadius" (by decide)
    have h6 := hfg "avoidanceAngle" (by decide)
    have h7 := hfg "width" (by decide)
    simp only [extractFromFun, h1, h2, h3, h4, h5, h6, h7]

/-- Witness for C8 at the empty attribute block, for which every key is
missing. -/
theorem c8_missing_fields_parse_as_zero_witness :
    (extractParams "").x = 0 ∧ (extractParams "").y = 0 ∧
    (extractParams "").speed = 0 ∧ (extractParams "").orientation = 0 ∧
    (extractParams "").detectionRadius = 0 ∧
    (extractParams "").avoidanceAngle = 0 ∧ (extractParams "").size = 0 :=
  ⟨(c8_missing_fields_parse_as_zero "").1 (by decide),
   (c8_missing_fields_parse_as_zero "").2.1 (by decide),
   (c8_missing_fields_parse_as_zero "").2.2.1 (by decide),
   (c8_missing_fields_parse_as_zero "").2.2.2.1 (by decide),
   (c8_missing_fields_parse_as_zero "").2.2.2.2.1 (by decide),
   (c8_missing_fields_parse_as_zero "").2.2.2.2.2.1 (by decide),
   (c8_missing_fields_parse_as_zero "").2.2.2.2.2.2.1 (by decide)⟩

/-! ### Claim C2 -/

/-- C2 counterexample: an autonomous robot constructed with orientation
code 0 (270 degrees) and avoidance angle 100 ends its very first update,
with an obstacle detected, at orientation 370, outside the interval
claimed to always hold at the end of an update.  The normalization lines
of the update body run before the avoidance adjustment, not after it. -/
theorem c2_orientation_leaves_range_after_avoidance :
    ((mkAutonomousRobot 0 0 0 0 100 1).update true).orientation = 370 ∧
    ¬ ((mkAutonomousRobot 0 0 0 0 100 1).update true).orientation < 360 := by
  have h : ((mkAutonomousRobot 0 0 0 0 100 1).update true).orientation
      = truncToInt (((normalizeOrientation 270 : ℤ) : ℝ) + 100) := rfl
  have hn : normalizeOrientation (270 : ℤ) = 270 := by decide
  have hcast : (((270 : ℤ) : ℝ) + 100) = ((370 : ℤ) : ℝ) := by push_cast; ring
  have h370 : truncToInt (((270 : ℤ) : ℝ) + 100) = 370 := by
    rw [truncToInt, hcast, if_pos (by positivity), Int.floor_intCast]
  rw [h, hn, h370]
  exact ⟨rfl, by decide⟩

/-- C2 as amended: in AutonomousRobot::update the normalization into
[0, 360) happens before the avoidance adjustment, not after it.  When no
obstacle is detected and the incoming orientation is within one 360-degree
step of the interval, the final orientation lies in [0, 360); when an
obstacle is detected the truncated avoidance sum is stored unnormalized
and may leave the interval.  RemoteRobot::update never adjusts
orientation. -/
theorem c2_normalization_precedes_avoidance
    (a : AutonomousRobot) (r : RemoteRobot) (d : Bool) :
    ((a.update d).orientation =
      if d then
        truncToInt ((normalizeOrientation a.orientation : ℝ) +
          a.avoidanceAngle)
      else normalizeOrientation a.orientation) ∧
    (-360 ≤ a.orientation → a.orientation < 720 →
      0 ≤ (a.update false).orientation ∧
        (a.update false).orientation < 360) ∧
    ((r.update d).orientation = r.orientation) := by
  refine ⟨?_, ?_, ?_⟩
  · cases d <;> rfl
  · intro h1 h2
    have h : (a.update false).orientation = normalizeOrientation a.orientation :=
      rfl
    rw [h]
    unfold normalizeOrientation
    dsimp only
    split <;> split <;> omega
  · cases d <;> rfl

/-- Witness for C2 as amended at a freshly constructed robot facing right
with no obstacle detected. -/
theorem c2_normalization_precedes_avoidance_witness :
    0 ≤ ((mkAutonomousRobot 0 0 1 0 0 1).update false).orientation ∧
      ((mkAutonomousRobot 0 0 1 0 0 1).update false).orientation < 360 :=
  (c2_normalization_precedes_avoidance (mkAutonomousRobot 0 0 1 0 0 1)
    (mkRemoteRobot 0 0 1 0) false).2.1 (by decide) (by decide)

/-! ### Claim C1 -/

/-- Geometry of one interpolation step: moving one tenth of the way from
the current point toward a point displaced by a vector of positive length A
along angle theta lands strictly between the two, at one tenth of the
distance. -/
theorem step_geometry (x y A θ : ℝ) (hA : 0 < A) :
    strictlyBetween (x, y)
      (x + 0.1 * (A * Real.cos θ), y + 0.1 * (A * Real.sin θ))
      (x + A * Real.cos θ, y + A * Real.sin θ) ∧
    dist2D (x, y) (x + 0.1 * (A * Real.cos θ), y + 0.1 * (A * Real.sin θ)) =
      0.1 * dist2D (x, y) (x + A * Real.cos θ, y + A * Real.sin θ) := by
  have hpyth : Real.cos θ ^ 2 + Real.sin θ ^ 2 = 1 := Real.cos_sq_add_sin_sq θ
  constructor
  · constructor
    · intro h
      rw [Prod.mk.injEq] at h
      have h1 : A * Real.cos θ = 0 := by linarith [h.1]
      have h2 : A * Real.sin θ = 0 := by linarith [h.2]
      have hc : Real.cos θ = 0 := by
        rcases mul_eq_zero.mp h1 with h | h
        · exact absurd h hA.ne'
        · exact h
      have hsn : Real.sin θ = 0 := by
        rcases mul_eq_zero.mp h2 with h | h
        · exact absurd h hA.ne'
        · exact h
      rw [hc, hsn] at hpyth
      norm_num at hpyth
    · exact ⟨0.1, by norm_num, by norm_num, by ring, by ring⟩
  · unfold dist2D
    have e1 : (x + 0.1 * (A * Real.cos θ) - x) ^ 2 +
        (y + 0.1 * (A * Real.sin θ) - y) ^ 2 =
        (0.1 * A) ^ 2 * (Real.cos θ ^ 2 + Real.sin θ ^ 2) := by ring
    have e2 : (x + A * Real.cos θ - x) ^ 2 + (y + A * Real.sin θ - y) ^ 2 =
        A ^ 2 * (Real.cos θ ^ 2 + Real.sin θ ^ 2) := by ring
    rw [e1, e2, hpyth, mul_one, mul_one,
      Real.sqrt_sq (by positivity : (0:ℝ) ≤ 0.1 * A), Real.sqrt_sq hA.le]

/-- C1: each robot update computes the target point displaced by speed
units along the orientation and stores the position interpolated one tenth
of the way toward it; for positive speed the new position lies strictly
between the old position and the target, at exactly ten percent of the
distance to the target. -/
theorem c1_update_moves_ten_percent_toward_target :
    (∀ (a : AutonomousRobot) (d : Bool),
      ((a.update d).positionX, (a.update d).positionY) =
        stepPos a.positionX a.positionY a.speed a.orientation) ∧
    (∀ (r : RemoteRobot) (d : Bool),
      ((r.update d).positionX, (r.update d).positionY) =
        stepPos r.positionX r.positionY r.speed r.orientation) ∧
    (∀ (x y : ℝ) (s o : ℤ), 0 < s →
      strictlyBetween (x, y) (stepPos x y s o) (stepTarget x y s o) ∧
      dist2D (x, y) (stepPos x y s o) =
        0.1 * dist2D (x, y) (stepTarget x y s o)) := by
  refine ⟨fun a d => rfl, fun r d => by cases d <;> rfl, fun x y s o hs => ?_⟩
  have hs' : (0 : ℝ) < (s : ℝ) := by exact_mod_cast hs
  have hp : stepPos x y s o =
      (x + 0.1 * ((s : ℝ) * Real.cos ((o : ℝ) * Real.pi / 180)),
       y + 0.1 * ((s : ℝ) * Real.sin ((o : ℝ) * Real.pi / 180))) := by
    unfold stepPos stepTarget
    simp only [Prod.mk.injEq]
    constructor <;> ring
  have ht : stepTarget x y s o =
      (x + (s : ℝ) * Real.cos ((o : ℝ) * Real.pi / 180),
       y + (s : ℝ) * Real.sin ((o : ℝ) * Real.pi / 180)) := rfl
  rw [hp, ht]
  exact step_geometry x y (s : ℝ) ((o : ℝ) * Real.pi / 180) hs'

/-- Witness for C1 at the origin with speed 1 and orientation 0. -/
theorem c1_update_moves_ten_percent_toward_target_witness :
    strictlyBetween (0, 0) (stepPos 0 0 1 0) (stepTarget 0 0 1 0) ∧
    dist2D (0, 0) (stepPos 0 0 1 0) = 0.1 * dist2D (0, 0) (stepTarget 0 0 1 0) :=
  c1_update_moves_ten_percent_toward_target.2.2 0 0 1 0 (by norm_num)

/-! ### Claim C7 -/

/-- C7 counterexample: at orientation 0 and detection radius 1 the far
corner of the rendered trapezoid sits at lateral offset tan of pi over six,
not at the offset a cone of half-angle 60 degrees would give over the
detection distance; the cone half-angle implied by the trapezoid is 30
degrees, not 60. -/
theorem c7_half_angle_is_not_sixty_degrees :
    (visionTrapezoid 0 1).topRight.2 ≠ Real.tan (60 * (Real.pi / 180)) := by
  have e : (visionTrapezoid 0 1).topRight.2 = Real.tan (Real.pi / 6) := by
    simp [visionTrapezoid, rotatePoint]
  have e2 : (60 : ℝ) * (Real.pi / 180) = Real.pi / 3 := by ring
  rw [e, e2, Real.tan_pi_div_six, Real.tan_pi_div_three]
  have h3 : (0 : ℝ) < Real.sqrt 3 := Real.sqrt_pos.mpr (by norm_num)
  have h33 : Real.sqrt 3 * Real.sqrt 3 = 3 := Real.mul_self_sqrt (by norm_num)
  intro heq
  rw [div_eq_iff h3.ne'] at heq
  rw [h33] at heq
  norm_num at heq

/-- C7 as amended: the far-edge half-width of the rendered trapezoid is
detectionRadius times the tangent of 30 degrees, the near-edge half-width
is the minimum of a third of the robot radius 20 and a quarter of the
far-edge half-width, the corners span axial distances 20 to
detectionRadius plus 20 and are rotated by the heading; the implied
forward detection cone half-angle, whose tangent is the far half-width
over the detection radius, is 30 degrees (so the full apex angle is 60
degrees, not a 60-degree half-angle). -/
theorem c7_trapezoid_geometry (o : ℤ) (detectionRadius : ℝ)
    (h : 0 < detectionRadius) :
    (visionTrapezoid o detectionRadius).topRight =
      rotatePoint (detectionRadius + 20,
        detectionRadius * Real.tan (Real.pi / 6)) ((o : ℝ) * Real.pi / 180) ∧
    (visionTrapezoid o detectionRadius).topLeft =
      rotatePoint (detectionRadius + 20,
        -(detectionRadius * Real.tan (Real.pi / 6))) ((o : ℝ) * Real.pi / 180) ∧
    (visionTrapezoid o detectionRadius).baseRight =
      rotatePoint (20, min (20 / 3)
          (detectionRadius * Real.tan (Real.pi / 6) / 4))
        ((o : ℝ) * Real.pi / 180) ∧
    (visionTrapezoid o detectionRadius).baseLeft =
      rotatePoint (20, -(min (20 / 3)
          (detectionRadius * Real.tan (Real.pi / 6) / 4)))
        ((o : ℝ) * Real.pi / 180) ∧
    (30 : ℝ) * (Real.pi / 180) = Real.pi / 6 ∧
    Real.arctan (detectionRadius * Real.tan (Real.pi / 6) / detectionRadius) =
      30 * (Real.pi / 180) := by
  refine ⟨rfl, rfl, ?_, ?_, by ring, ?_⟩
  · simp only [visionTrapezoid]
    split
    · next hgt => rw [min_eq_left (le_of_lt hgt)]
    · next hng => rw [min_eq_right (not_lt.mp hng)]
  · simp only [visionTrapezoid]
    split
    · next hgt => rw [min_eq_left (le_of_lt hgt)]
    · next hng => rw [min_eq_right (not_lt.mp hng)]
  · rw [mul_comm, mul_div_assoc, div_self h.ne', mul_one]
    have hpi := Real.pi_pos
    rw [Real.arctan_tan (by linarith) (by linarith)]
    ring

/-- Witness for C7 as amended at orientation 0 and detection radius 1. -/
theorem c7_trapezoid_geometry_witness :
    Real.arctan ((1 : ℝ) * Real.tan (Real.pi / 6) / 1) = 30 * (Real.pi / 180) :=
  (c7_trapezoid_geometry 0 1 (by norm_num)).2.2.2.2.2

/-! ### Placement helper lemmas -/

/-- The occupant search reports a kind of item exactly when an item of that
kind overlaps the query area. -/
theorem foundItems_any_iff (w : MainWindow) (area : Rect) (p : SceneItem → Bool) :
    ((w.foundItems area).any p = true) ↔
      ∃ it ∈ w.items, Rect.overlaps area it.rect ∧ p it = true := by
  simp [MainWindow.foundItems, List.any_eq_true, List.mem_filter,
    decide_eq_true_eq, and_assoc]

/-- If some registered item overlaps the query area then the occupant
search result is nonempty. -/
theorem foundItems_isEmpty_false (w : MainWindow) (area : Rect)
    (h : ∃ it ∈ w.items, Rect.overlaps area it.rect) :
    (w.foundItems area).isEmpty = false := by
  rcases h with ⟨it, hmem, hov⟩
  have hin : it ∈ w.foundItems area := by
    simp [MainWindow.foundItems, List.mem_filter, hmem, hov]
  cases hfi : w.foundItems area with
  | nil => rw [hfi] at hin; exact absurd hin (List.not_mem_nil it)
  | cons a l => rfl

/-- If no registered item overlaps the query area then the occupant search
comes back empty. -/
theorem foundItems_eq_nil (w : MainWindow) (area : Rect)
    (h : ¬ ∃ it ∈ w.items, Rect.overlaps area it.rect) :
    w.foundItems area = [] := by
  unfold MainWindow.foundItems
  rw [List.filter_eq_nil_iff]
  intro a ha
  simp only [decide_eq_true_eq]
  intro hov
  exact h ⟨a, ha, hov⟩

/-- Common shape of both interactive creation handlers: whenever an
overlapping occupant exists, the scene is returned unchanged together with
a conflict that correctly reports which kinds of items occupy the area. -/
theorem create_reject_of_overlap (w : MainWindow) (area : Rect)
    (other : MainWindow × Option Conflict) (res : MainWindow × Option Conflict)
    (hres : res = if (w.foundItems area).isEmpty then other
      else (w, some ⟨(w.foundItems area).any SceneItem.isRobot,
                     (w.foundItems area).any SceneItem.isObstacle⟩))
    (h : ∃ it ∈ w.items, Rect.overlaps area it.rect) :
    res.1 = w ∧ ∃ c, res.2 = some c ∧
      (c.robotFound = true ↔
        ∃ it ∈ w.items, Rect.overlaps area it.rect ∧ it.isRobot = true) ∧
      (c.obstacleFound = true ↔
        ∃ it ∈ w.items, Rect.overlaps area it.rect ∧ it.isObstacle = true) := by
  have hie := foundItems_isEmpty_false w area h
  rw [hres, hie, if_neg Bool.false_ne_true]
  exact ⟨rfl, ⟨_, rfl, foundItems_any_iff w area SceneItem.isRobot,
    foundItems_any_iff w area SceneItem.isObstacle⟩⟩

/-! ### Claim C3 -/

/-- C3: an interactive placement whose bounding region overlaps an
existing item is rejected: the scene is unchanged and the conflict message
data correctly identifies whether the occupant is a robot, an obstacle, or
both.  This holds for obstacle creation and for robot creation. -/
theorem c3_overlapping_placement_is_rejected :
    (∀ (w : MainWindow) (x y width : ℤ),
      (∃ it ∈ w.items,
        Rect.overlaps ⟨(x : ℝ), (y : ℝ), (width : ℝ), (width : ℝ)⟩ it.rect) →
      (w.createObstacle x y width).1 = w ∧
      ∃ c, (w.createObstacle x y width).2 = some c ∧
        (c.robotFound = true ↔ ∃ it ∈ w.items,
          Rect.overlaps ⟨(x : ℝ), (y : ℝ), (width : ℝ), (width : ℝ)⟩ it.rect ∧
            it.isRobot = true) ∧
        (c.obstacleFound = true ↔ ∃ it ∈ w.items,
          Rect.overlaps ⟨(x : ℝ), (y : ℝ), (width : ℝ), (width : ℝ)⟩ it.rect ∧
            it.isObstacle = true)) ∧
    (∀ (w : MainWindow) (robotType orientation speed : ℤ)
        (detectionRadius x y avoidanceAngle : ℝ),
      (∃ it ∈ w.items, Rect.overlaps ⟨x - 20, y - 20, 40, 40⟩ it.rect) →
      (w.createRobot robotType orientation speed detectionRadius x y
          avoidanceAngle).1 = w ∧
      ∃ c, (w.createRobot robotType orientation speed detectionRadius x y
          avoidanceAngle).2 = some c ∧
        (c.robotFound = true ↔ ∃ it ∈ w.items,
          Rect.overlaps ⟨x - 20, y - 20, 40, 40⟩ it.rect ∧ it.isRobot = true) ∧
        (c.obstacleFound = true ↔ ∃ it ∈ w.items,
          Rect.overlaps ⟨x - 20, y - 20, 40, 40⟩ it.rect ∧
            it.isObstacle = true)) := by
  constructor
  · intro w x y width h
    exact create_reject_of_overlap w
      ⟨(x : ℝ), (y : ℝ), (width : ℝ), (width : ℝ)⟩
      ({ w with obstacles := w.obstacles ++ [⟨(x : ℝ), (y : ℝ), (width : ℝ)⟩] },
        none)
      (w.createObstacle x y width) rfl h
  · intro w robotType orientation speed detectionRadius x y avoidanceAngle h
    exact create_reject_of_overlap w ⟨x - 20, y - 20, 40, 40⟩
      (if robotType = 0 then
        ({ w with autonomousRobots := w.autonomousRobots ++
            [mkAutonomousRobot x y orientation detectionRadius avoidanceAngle
              speed] }, none)
      else
        ({ w with remoteRobots := w.remoteRobots ++
            [mkRemoteRobot x y speed detectionRadius] }, none))
      (w.createRobot robotType orientation speed detectionRadius x y
        avoidanceAngle) rfl h

/-- Witness for C3: placing an obstacle at (5, 5) with width 10 on the
scene already holding the sample obstacle is rejected and the conflict
data names an obstacle occupant. -/
theorem c3_overlapping_placement_is_rejected_witness :
    (obstacleScene.createObstacle 5 5 10).1 = obstacleScene ∧
    ∃ c, (obstacleScene.createObstacle 5 5 10).2 = some c ∧
      (c.robotFound = true ↔ ∃ it ∈ obstacleScene.items,
        Rect.overlaps ⟨((5 : ℤ) : ℝ), ((5 : ℤ) : ℝ), ((10 : ℤ) : ℝ),
          ((10 : ℤ) : ℝ)⟩ it.rect ∧ it.isRobot = true) ∧
      (c.obstacleFound = true ↔ ∃ it ∈ obstacleScene.items,
        Rect.overlaps ⟨((5 : ℤ) : ℝ), ((5 : ℤ) : ℝ), ((10 : ℤ) : ℝ),
          ((10 : ℤ) : ℝ)⟩ it.rect ∧ it.isObstacle = true) :=
  c3_overlapping_placement_is_rejected.1 obstacleScene 5 5 10
    ⟨SceneItem.obst sampleObstacle,
      by simp [MainWindow.items, obstacleScene],
      by norm_num [Rect.overlaps, SceneItem.rect, sampleObstacle]⟩

/-! ### Claim C4 -/

/-- C4 counterexample: a scene-file Obstacle block whose square coincides
with the already registered sample obstacle is nevertheless created by
processObject, so after this load-time creation the registry holds two
overlapping entities, contradicting the claim that the overlap check runs
at every entity-creation time including batch load. -/
theorem c4_loader_creates_overlapping_entity :
    Rect.overlaps ⟨0, 0, 10, 10⟩ (SceneItem.obst sampleObstacle).rect ∧
    (obstacleScene.processObject "Obstacle" obstacleAttrs).obstacles =
      obstacleScene.obstacles ++
        [⟨((0 : ℤ) : ℝ), ((0 : ℤ) : ℝ), ((10 : ℤ) : ℝ)⟩] ∧
    Rect.overlaps (SceneItem.obst sampleObstacle).rect
      (SceneItem.obst ⟨((0 : ℤ) : ℝ), ((0 : ℤ) : ℝ), ((10 : ℤ) : ℝ)⟩).rect := by
  refine ⟨?_, ?_, ?_⟩
  · norm_num [Rect.overlaps, SceneItem.rect, sampleObstacle]
  · rfl
  · norm_num [Rect.overlaps, SceneItem.rect, sampleObstacle]

/-- C4 as amended: only the interactive creation handlers check the new
bounding region against the registered items (adding the entity exactly
when no overlap exists); processObject, used for batch load from a scene
file, registers the parsed entity unconditionally, so overlapping
entities can exist at creation time after a load. -/
theorem c4_overlap_checked_only_interactively :
    (∀ (w : MainWindow) (x y width : ℤ),
      ((∃ it ∈ w.items,
          Rect.overlaps ⟨(x : ℝ), (y : ℝ), (width : ℝ), (width : ℝ)⟩ it.rect) →
        (w.createObstacle x y width).1 = w) ∧
      ((¬ ∃ it ∈ w.items,
          Rect.overlaps ⟨(x : ℝ), (y : ℝ), (width : ℝ), (width : ℝ)⟩ it.rect) →
        (w.createObstacle x y width).1 =
          { w with obstacles :=
              w.obstacles ++ [⟨(x : ℝ), (y : ℝ), (width : ℝ)⟩] })) ∧
    (∀ (w : MainWindow) (robotType orientation speed : ℤ)
        (detectionRadius x y avoidanceAngle : ℝ),
      ((∃ it ∈ w.items, Rect.overlaps ⟨x - 20, y - 20, 40, 40⟩ it.rect) →
        (w.createRobot robotType orientation speed detectionRadius x y
            avoidanceAngle).1 = w) ∧
      ((¬ ∃ it ∈ w.items, Rect.overlaps ⟨x - 20, y - 20, 40, 40⟩ it.rect) →
        (w.createRobot robotType orientation speed detectionRadius x y
            avoidanceAngle).1 =
          if robotType = 0 then
            { w with autonomousRobots := w.autonomousRobots ++
                [mkAutonomousRobot x y orientation detectionRadius
                  avoidanceAngle speed] }
          else
            { w with remoteRobots := w.remoteRobots ++
                [mkRemoteRobot x y speed detectionRadius] })) ∧
    (∀ (w : MainWindow) (attributes : String),
      (w.processObject "Obstacle" attributes).obstacles =
        w.obstacles ++ [⟨((extractParams attributes).x : ℝ),
          ((extractParams attributes).y : ℝ),
          ((extractParams attributes).size : ℝ)⟩] ∧
      (w.processObject "AutonomousRobot" attributes).autonomousRobots =
        w.autonomousRobots ++
          [mkAutonomousRobot ((extractParams attributes).x : ℝ)
            ((extractParams attributes).y : ℝ)
            (extractParams attributes).orientation
            (((extractParams attributes).detectionRadius : ℚ) : ℝ)
            (((extractParams attributes).avoidanceAngle : ℚ) : ℝ)
            (extractParams attributes).speed] ∧
      (w.processObject "RemoteRobot" attributes).remoteRobots =
        w.remoteRobots ++
          [mkRemoteRobot ((extractParams attributes).x : ℝ)
            ((extractParams attributes).y : ℝ)
            (extractParams attributes).speed
            (((extractParams attributes).detectionRadius : ℚ) : ℝ)]) := by
  refine ⟨fun w x y width => ⟨fun h => ?_, fun h => ?_⟩,
    fun w robotType orientation speed detectionRadius x y avoidanceAngle =>
      ⟨fun h => ?_, fun h => ?_⟩,
    fun w attributes => ⟨rfl, rfl, rfl⟩⟩
  · exact (create_reject_of_overlap w
      ⟨(x : ℝ), (y : ℝ), (width : ℝ), (width : ℝ)⟩
      ({ w with obstacles := w.obstacles ++ [⟨(x : ℝ), (y : ℝ), (width : ℝ)⟩] },
        none)
      (w.createObstacle x y width) rfl h).1
  · have hnil := foundItems_eq_nil w
      ⟨(x : ℝ), (y : ℝ), (width : ℝ), (width : ℝ)⟩ h
    simp only [MainWindow.createObstacle]
    rw [hnil]
    rfl
  · exact (create_reject_of_overlap w ⟨x - 20, y - 20, 40, 40⟩
      (if robotType = 0 then
        ({ w with autonomousRobots := w.autonomousRobots ++
            [mkAutonomousRobot x y orientation detectionRadius avoidanceAngle
              speed] }, none)
      else
        ({ w with remoteRobots := w.remoteRobots ++
            [mkRemoteRobot x y speed detectionRadius] }, none))
      (w.createRobot robotType orientation speed detectionRadius x y
        avoidanceAngle) rfl h).1
  · have hnil := foundItems_eq_nil w ⟨x - 20, y - 20, 40, 40⟩ h
    simp only [MainWindow.createRobot]
    rw [hnil]
    by_cases h0 : robotType = 0
    · rw [if_pos h0, if_pos h0]
      rfl
    · rw [if_neg h0, if_neg h0]
      rfl

/-- Witness for C4 as amended: creating an obstacle away from the sample
obstacle succeeds and appends it. -/
theorem c4_overlap_checked_only_interactively_witness :
    (obstacleScene.createObstacle 100 100 10).1 =
      { obstacleScene with obstacles := obstacleScene.obstacles ++
          [⟨((100 : ℤ) : ℝ), ((100 : ℤ) : ℝ), ((10 : ℤ) : ℝ)⟩] } :=
  (c4_overlap_checked_only_interactively.1 obstacleScene 100 100 10).2
    (by
      rintro ⟨it, hit, hov⟩
      simp only [MainWindow.items, obstacleScene, sampleObstacle,
        List.map_nil, List.nil_append, List.map_cons, List.mem_cons,
        List.not_mem_nil, or_false] at hit
      subst hit
      norm_num [Rect.overlaps, SceneItem.rect] at hov)

/-! ### Scheduler helper lemmas -/

theorem samePose_refl (r : RemoteRobot) : samePose r r :=
  ⟨rfl, rfl, rfl, rfl, rfl⟩

theorem samePose_trans {a b c : RemoteRobot} (h1 : samePose a b)
    (h2 : samePose b c) : samePose a c := by
  obtain ⟨a1, a2, a3, a4, a5⟩ := h1
  obtain ⟨b1, b2, b3, b4, b5⟩ := h2
  exact ⟨b1.trans a1, b2.trans a2, b3.trans a3, b4.trans a4, b5.trans a5⟩

theorem samePose_rotateRight (r : RemoteRobot) : samePose r r.rotateRight :=
  ⟨rfl, rfl, rfl, rfl, rfl⟩

theorem samePose_rotateLeft (r : RemoteRobot) : samePose r r.rotateLeft :=
  ⟨rfl, rfl, rfl, rfl, rfl⟩

theorem modifyAt_length (l : List α) (i : Nat) (f : α → α) :
    (modifyAt l i f).length = l.length := by
  unfold modifyAt
  cases hi : l[i]? with
  | none => rfl
  | some a => exact List.length_set l i (f a)

theorem modifyAt_getElem? (l : List α) (i k : Nat) (f : α → α) :
    (modifyAt l i f)[k]? = if k = i then (l[i]?).map f else l[k]? := by
  unfold modifyAt
  cases hi : l[i]? with
  | none =>
    by_cases hk : k = i
    · subst hk
      rw [if_pos rfl, hi]
      rfl
    · rw [if_neg hk]
  | some a =>
    by_cases hk : k = i
    · subst hk
      rw [if_pos rfl]
      have hlt : k < l.length := (List.getElem?_eq_some_iff.mp hi).1
      rw [List.getElem?_set_self hlt]
      rfl
    · rw [if_neg hk, List.getElem?_set_ne (fun h => hk h.symm)]

theorem rotateRobotRight_length (w : MainWindow) :
    w.rotateRobotRight.remoteRobots.length = w.remoteRobots.length := by
  unfold MainWindow.rotateRobotRight
  cases w.selectedRobot with
  | none => rfl
  | some j =>
    dsimp only
    by_cases ht : w.timerActive
    · rw [if_pos ht]
      exact modifyAt_length _ _ _
    · rw [if_neg ht]

theorem rotateRobotLeft_length (w : MainWindow) :
    w.rotateRobotLeft.remoteRobots.length = w.remoteRobots.length := by
  unfold MainWindow.rotateRobotLeft
  cases w.selectedRobot with
  | none => rfl
  | some j =>
    dsimp only
    by_cases ht : w.timerActive
    · rw [if_pos ht]
      exact modifyAt_length _ _ _
    · rw [if_neg ht]

theorem rotateRobotRight_pose (w : MainWindow) (k : Nat) (r : RemoteRobot)
    (hk : w.remoteRobots[k]? = some r) :
    ∃ r', w.rotateRobotRight.remoteRobots[k]? = some r' ∧ samePose r r' := by
  unfold MainWindow.rotateRobotRight
  cases w.selectedRobot with
  | none => exact ⟨r, hk, samePose_refl r⟩
  | some j =>
    dsimp only
    by_cases ht : w.timerActive
    · rw [if_pos ht]
      have hm := modifyAt_getElem? w.remoteRobots j k RemoteRobot.rotateRight
      by_cases hkj : k = j
      · subst hkj
        rw [if_pos rfl, hk] at hm
        exact ⟨r.rotateRight, hm, samePose_rotateRight r⟩
      · rw [if_neg hkj] at hm
        exact ⟨r, hm.trans hk, samePose_refl r⟩
    · rw [if_neg ht]
      exact ⟨r, hk, samePose_refl r⟩

theorem rotateRobotLeft_pose (w : MainWindow) (k : Nat) (r : RemoteRobot)
    (hk : w.remoteRobots[k]? = some r) :
    ∃ r', w.rotateRobotLeft.remoteRobots[k]? = some r' ∧ samePose r r' := by
  unfold MainWindow.rotateRobotLeft
  cases w.selectedRobot with
  | none => exact ⟨r, hk, samePose_refl r⟩
  | some j =>
    dsimp only
    by_cases ht : w.timerActive
    · rw [if_pos ht]
      have hm := modifyAt_getElem? w.remoteRobots j k RemoteRobot.rotateLeft
      by_cases hkj : k = j
      · subst hkj
        rw [if_pos rfl, hk] at hm
        exact ⟨r.rotateLeft, hm, samePose_rotateLeft r⟩
      · rw [if_neg hkj] at hm
        exact ⟨r, hm.trans hk, samePose_refl r⟩
    · rw [if_neg ht]
      exact ⟨r, hk, samePose_refl r⟩

theorem dispatchRotation_length (w : MainWindow) (dir : RotationDirection) :
    (w.dispatchRotation dir).remoteRobots.length = w.remoteRobots.length := by
  unfold MainWindow.dispatchRotation
  cases dir with
  | NoRotation => rfl
  | RotateLeft => exact rotateRobotLeft_length w
  | RotateRight => exact rotateRobotRight_length w

theorem dispatchRotation_pose (w : MainWindow) (dir : RotationDirection)
    (k : Nat) (r : RemoteRobot) (hk : w.remoteRobots[k]? = some r) :
    ∃ r', (w.dispatchRotation dir).remoteRobots[k]? = some r' ∧ samePose r r' := by
  unfold MainWindow.dispatchRotation
  cases dir with
  | NoRotation => exact ⟨r, hk, samePose_refl r⟩
  | RotateLeft => exact rotateRobotLeft_pose w k r hk
  | RotateRight => exact rotateRobotRight_pose w k r hk

theorem remoteStep_length (w : MainWindow) (i : Nat) (d : Bool) :
    (w.remoteStep i d).1.remoteRobots.length = w.remoteRobots.length := by
  unfold MainWindow.remoteStep
  cases hi : w.remoteRobots[i]? with
  | none => rfl
  | some r =>
    dsimp only
    cases h1 : (w.dispatchRotation r.rotationDirection).remoteRobots[i]? with
    | none => exact dispatchRotation_length w r.rotationDirection
    | some r1 =>
      dsimp only
      by_cases hm : r1.isMoving
      · rw [if_pos hm]
        dsimp only
        rw [List.length_set]
        exact dispatchRotation_length w r.rotationDirection
      · rw [if_neg hm]
        exact dispatchRotation_length w r.rotationDirection

theorem remoteStep_pose (w : MainWindow) (i : Nat) (d : Bool) (k : Nat)
    (r : RemoteRobot) (hk : w.remoteRobots[k]? = some r)
    (hcond : k ≠ i ∨ r.isMoving = false) :
    ∃ r', (w.remoteStep i d).1.remoteRobots[k]? = some r' ∧ samePose r r' := by
  unfold MainWindow.remoteStep
  cases hi : w.remoteRobots[i]? with
  | none => exact ⟨r, hk, samePose_refl r⟩
  | some ri =>
    dsimp only
    obtain ⟨rk, hrk, hpose⟩ := dispatchRotation_pose w ri.rotationDirection k r hk
    cases h1 : (w.dispatchRotation ri.rotationDirection).remoteRobots[i]? with
    | none => exact ⟨rk, hrk, hpose⟩
    | some r1 =>
      dsimp only
      by_cases hm : r1.isMoving
      · rw [if_pos hm]
        dsimp only
        by_cases hki : k = i
        · rcases hcond with hne | hmf
          · exact absurd hki hne
          · subst hki
            rw [hrk] at h1
            injection h1 with h1e
            rw [← h1e, hpose.2.2.1, hmf] at hm
            exact absurd hm (by decide)
        · rw [List.getElem?_set_ne (fun h => hki h.symm)]
          exact ⟨rk, hrk, hpose⟩
      · rw [if_neg hm]
        exact ⟨rk, hrk, hpose⟩

theorem remoteStep_calls (w : MainWindow) (i : Nat) (d : Bool) :
    (w.remoteStep i d).2 =
      if (w.remoteRobots[i]?).map RemoteRobot.isMoving = some true
      then [TickCall.remote i] else [] := by
  unfold MainWindow.remoteStep
  cases hi : w.remoteRobots[i]? with
  | none => simp
  | some ri =>
    dsimp only
    obtain ⟨rk, hrk, hpose⟩ := dispatchRotation_pose w ri.rotationDirection i ri hi
    rw [hrk]
    dsimp only
    by_cases hm : rk.isMoving
    · rw [if_pos hm]
      rw [hpose.2.2.1] at hm
      simp [hm]
    · rw [if_neg hm]
      rw [hpose.2.2.1] at hm
      simp [hm]

theorem remoteLoop_length (dr : Nat → Bool) (n : Nat) :
    ∀ (i : Nat) (w : MainWindow),
      (MainWindow.remoteLoop dr n i w).1.remoteRobots.length =
        w.remoteRobots.length := by
  induction n with
  | zero => intro i w; rfl
  | succ n ih =>
    intro i w
    simp only [MainWindow.remoteLoop]
    rw [ih (i + 1) (w.remoteStep i (dr i)).1, remoteStep_length]

theorem remoteLoop_pose_notMoving (dr : Nat → Bool) (n : Nat) :
    ∀ (i : Nat) (w : MainWindow) (k : Nat) (r : RemoteRobot),
      w.remoteRobots[k]? = some r → r.isMoving = false →
      ∃ r', (MainWindow.remoteLoop dr n i w).1.remoteRobots[k]? = some r' ∧
        samePose r r' := by
  induction n with
  | zero => intro i w k r hk _; exact ⟨r, hk, samePose_refl r⟩
  | succ n ih =>
    intro i w k r hk hm
    obtain ⟨r1, h1, hp1⟩ := remoteStep_pose w i (dr i) k r hk (Or.inr hm)
    have hm1 : r1.isMoving = false := by rw [hp1.2.2.1, hm]
    obtain ⟨r2, h2, hp2⟩ := ih (i + 1) (w.remoteStep i (dr i)).1 k r1 h1 hm1
    refine ⟨r2, ?_, samePose_trans hp1 hp2⟩
    simp only [MainWindow.remoteLoop]
    exact h2

theorem remoteLoop_pose_lower (dr : Nat → Bool) (n : Nat) :
    ∀ (i : Nat) (w : MainWindow) (k : Nat) (r : RemoteRobot),
      w.remoteRobots[k]? = some r → k < i →
      ∃ r', (MainWindow.remoteLoop dr n i w).1.remoteRobots[k]? = some r' ∧
        samePose r r' := by
  induction n with
  | zero => intro i w k r hk _; exact ⟨r, hk, samePose_refl r⟩
  | succ n ih =>
    intro i w k r hk hki
    obtain ⟨r1, h1, hp1⟩ :=
      remoteStep_pose w i (dr i) k r hk (Or.inl (Nat.ne_of_lt hki))
    obtain ⟨r2, h2, hp2⟩ :=
      ih (i + 1) (w.remoteStep i (dr i)).1 k r1 h1 (by omega)
    refine ⟨r2, ?_, samePose_trans hp1 hp2⟩
    simp only [MainWindow.remoteLoop]
    exact h2

theorem remoteCallsSpec_congr : ∀ (l1 l2 : List RemoteRobot) (i : Nat),
    l1.map RemoteRobot.isMoving = l2.map RemoteRobot.isMoving →
    remoteCallsSpec l1 i = remoteCallsSpec l2 i := by
  intro l1
  induction l1 with
  | nil =>
    intro l2 i h
    cases l2 with
    | nil => rfl
    | cons b bs => simp at h
  | cons a as ih =>
    intro l2 i h
    cases l2 with
    | nil => simp at h
    | cons b bs =>
      simp only [List.map_cons, List.cons.injEq] at h
      simp only [remoteCallsSpec, h.1, ih bs (i + 1) h.2]

theorem remoteStep_isMoving_map_drop (w : MainWindow) (i : Nat) (d : Bool) :
    ((w.remoteStep i d).1.remoteRobots.drop (i + 1)).map RemoteRobot.isMoving =
      (w.remoteRobots.drop (i + 1)).map RemoteRobot.isMoving := by
  apply List.ext_getElem?
  intro n
  rw [List.getElem?_map, List.getElem?_map, List.getElem?_drop,
    List.getElem?_drop]
  cases hx : w.remoteRobots[i + 1 + n]? with
  | none =>
    have hlen : w.remoteRobots.length ≤ i + 1 + n :=
      List.getElem?_eq_none_iff.mp hx
    have hnone : (w.remoteStep i d).1.remoteRobots[i + 1 + n]? = none :=
      List.getElem?_eq_none (by rw [remoteStep_length]; exact hlen)
    rw [hnone]
  | some r =>
    obtain ⟨r', h', hp⟩ :=
      remoteStep_pose w i d (i + 1 + n) r hx (Or.inl (by omega))
    rw [h']
    simp [hp.2.2.1]

theorem remoteLoop_calls (dr : Nat → Bool) (n : Nat) :
    ∀ (i : Nat) (w : MainWindow), i + n = w.remoteRobots.length →
      (MainWindow.remoteLoop dr n i w).2 =
        remoteCallsSpec (w.remoteRobots.drop i) i := by
  induction n with
  | zero =>
    intro i w hlen
    have hdropnil : w.remoteRobots.drop i = [] := by
      rw [show i = w.remoteRobots.length by omega]
      exact List.drop_length _
    rw [hdropnil]
    rfl
  | succ n ih =>
    intro i w hlen
    have hilt : i < w.remoteRobots.length := by omega
    have hdrop := List.drop_eq_getElem_cons hilt
    have hi : w.remoteRobots[i]? = some w.remoteRobots[i] :=
      List.getElem?_eq_getElem hilt
    simp only [MainWindow.remoteLoop]
    rw [remoteStep_calls, hi,
      ih (i + 1) (w.remoteStep i (dr i)).1 (by rw [remoteStep_length]; omega),
      remoteCallsSpec_congr ((w.remoteStep i (dr i)).1.remoteRobots.drop (i + 1))
        (w.remoteRobots.drop (i + 1)) (i + 1)
        (remoteStep_isMoving_map_drop w i (dr i)),
      hdrop]
    simp only [remoteCallsSpec, Option.map_some', Option.some.injEq]

/-! ### Claim C6 -/

/-- C6 counterexample: a scene with a single stationary remote robot makes
no robot update call at all during a tick, while the claim demands one
update call for every robot. -/
theorem c6_stationary_remote_robot_not_updated :
    (idleScene.updateRobots (fun _ => false) (fun _ => false)).2 ≠
      (List.range idleScene.autonomousRobots.length).map TickCall.auto ++
        (List.range idleScene.remoteRobots.length).map TickCall.remote := by
  decide

/-- C6 as amended: each tick calls update exactly once on every autonomous
robot, in list order, and then exactly once on every remote robot whose
moving flag is set, in list order; stationary remote robots receive no
update call. -/
theorem c6_tick_updates_autonomous_then_moving_remote (w : MainWindow)
    (detectA detectR : Nat → Bool) :
    (w.updateRobots detectA detectR).2 =
      (List.range w.autonomousRobots.length).map TickCall.auto ++
        remoteCallsSpec w.remoteRobots 0 := by
  unfold MainWindow.updateRobots
  dsimp only
  rw [remoteLoop_calls detectR _ 0 _ (by simp)]
  rfl

/-! ### Movement lemmas for the remote robot -/

theorem update_pos_of_orientation_zero (r : RemoteRobot) (d : Bool)
    (h0 : r.orientation = 0) :
    (r.update d).positionX = r.positionX + 0.1 * (r.speed : ℝ) ∧
    (r.update d).positionY = r.positionY := by
  have hcos : Real.cos (((0 : ℤ) : ℝ) * Real.pi / 180) = 1 := by simp
  have hsin : Real.sin (((0 : ℤ) : ℝ) * Real.pi / 180) = 0 := by simp
  cases d <;>
    (constructor <;>
      (simp only [RemoteRobot.update, RemoteRobot.stop, h0, hcos, hsin,
        Bool.false_eq_true, if_false, if_true]
       ring))

theorem remoteStep_moving_self (w : MainWindow) (i : Nat) (d : Bool)
    (r : RemoteRobot) (hk : w.remoteRobots[i]? = some r)
    (hm : r.isMoving = true) (h0 : r.orientation = 0) :
    ∃ r', (w.remoteStep i d).1.remoteRobots[i]? = some r' ∧
      r'.positionX = r.positionX + 0.1 * (r.speed : ℝ) ∧
      r'.positionY = r.positionY := by
  unfold MainWindow.remoteStep
  rw [hk]
  dsimp only
  obtain ⟨r1, h1, hp1⟩ := dispatchRotation_pose w r.rotationDirection i r hk
  rw [h1]
  dsimp only
  have hm1 : r1.isMoving = true := by rw [hp1.2.2.1, hm]
  rw [if_pos hm1]
  dsimp only
  have hlt : i < (w.dispatchRotation r.rotationDirection).remoteRobots.length :=
    (List.getElem?_eq_some_iff.mp h1).1
  rw [List.getElem?_set_self hlt]
  obtain ⟨hx, hy⟩ :=
    update_pos_of_orientation_zero r1 d (by rw [hp1.2.2.2.1, h0])
  exact ⟨r1.update d, rfl,
    by rw [hx, hp1.1, hp1.2.2.2.2],
    by rw [hy, hp1.2.1]⟩

theorem remoteLoop_moving (dr : Nat → Bool) (n : Nat) :
    ∀ (i : Nat) (w : MainWindow) (k : Nat) (r : RemoteRobot),
      w.remoteRobots[k]? = some r → r.isMoving = true → r.orientation = 0 →
      i ≤ k → k < i + n →
      ∃ r', (MainWindow.remoteLoop dr n i w).1.remoteRobots[k]? = some r' ∧
        r'.positionX = r.positionX + 0.1 * (r.speed : ℝ) ∧
        r'.positionY = r.positionY := by
  induction n with
  | zero => intro i w k r _ _ _ h1 h2; exact absurd h2 (by omega)
  | succ n ih =>
    intro i w k r hk hm h0 hik hkn
    by_cases hki : i = k
    · subst hki
      obtain ⟨r1, h1, hx1, hy1⟩ := remoteStep_moving_self w i (dr i) r hk hm h0
      obtain ⟨r2, h2, hp2⟩ :=
        remoteLoop_pose_lower dr n (i + 1) (w.remoteStep i (dr i)).1 i r1 h1
          (by omega)
      refine ⟨r2, ?_, ?_, ?_⟩
      · simp only [MainWindow.remoteLoop]
        exact h2
      · rw [hp2.1, hx1]
      · rw [hp2.2.1, hy1]
    · obtain ⟨r1, h1, hp1⟩ :=
        remoteStep_pose w i (dr i) k r hk (Or.inl (fun h => hki h.symm))
      obtain ⟨r2, h2, hx2, hy2⟩ :=
        ih (i + 1) (w.remoteStep i (dr i)).1 k r1 h1
          (by rw [hp1.2.2.1, hm]) (by rw [hp1.2.2.2.1, h0])
          (by omega) (by omega)
      refine ⟨r2, ?_, ?_, ?_⟩
      · simp only [MainWindow.remoteLoop]
        exact h2
      · rw [hx2, hp1.1, hp1.2.2.2.2]
      · rw [hy2, hp1.2.1]

theorem updateRobots_pose_notMoving (w : MainWindow) (dA dR : Nat → Bool)
    (k : Nat) (r : RemoteRobot) (hk : w.remoteRobots[k]? = some r)
    (hm : r.isMoving = false) :
    ∃ r', (w.updateRobots dA dR).1.remoteRobots[k]? = some r' ∧
      samePose r r' := by
  unfold MainWindow.updateRobots
  dsimp only
  exact remoteLoop_pose_notMoving dR _ 0 _ k r hk hm

theorem runTicks_pose_notMoving (dA dR : Nat → Nat → Bool) (n : Nat) :
    ∀ (w : MainWindow) (k : Nat) (r : RemoteRobot),
      w.remoteRobots[k]? = some r → r.isMoving = false →
      ∃ r', (runTicks dA dR n w).remoteRobots[k]? = some r' ∧ samePose r r' := by
  induction n with
  | zero => intro w k r hk _; exact ⟨r, hk, samePose_refl r⟩
  | succ n ih =>
    intro w k r hk hm
    obtain ⟨r1, h1, hp1⟩ := updateRobots_pose_notMoving w (dA n) (dR n) k r hk hm
    have hm1 : r1.isMoving = false := by rw [hp1.2.2.1, hm]
    obtain ⟨r2, h2, hp2⟩ := ih ((w.updateRobots (dA n) (dR n)).1) k r1 h1 hm1
    exact ⟨r2, h2, samePose_trans hp1 hp2⟩

theorem updateRobots_moving (w : MainWindow) (dA dR : Nat → Bool) (k : Nat)
    (r : RemoteRobot) (hk : w.remoteRobots[k]? = some r)
    (hm : r.isMoving = true) (h0 : r.orientation = 0) :
    ∃ r', (w.updateRobots dA dR).1.remoteRobots[k]? = some r' ∧
      r'.positionX = r.positionX + 0.1 * (r.speed : ℝ) ∧
      r'.positionY = r.positionY := by
  have hlt : k < w.remoteRobots.length := (List.getElem?_eq_some_iff.mp hk).1
  unfold MainWindow.updateRobots
  dsimp only
  exact remoteLoop_moving dR _ 0 _ k r hk hm h0 (Nat.zero_le k)
    (by simpa using hlt)

/-! ### Claim C5 -/

/-- C5: a RemoteControlled robot whose moving flag is false keeps its
position unchanged over any number of simulation ticks; once the moving
flag is true, a single tick moves the robot, whose heading is 0 degrees,
by exactly ten percent of its speed along that heading (the positive x
direction). -/
theorem c5_moving_flag_gates_remote_motion :
    (∀ (dA dR : Nat → Nat → Bool) (n : Nat) (w : MainWindow) (k : Nat)
        (r : RemoteRobot),
      w.remoteRobots[k]? = some r → r.isMoving = false →
      ∃ r', (runTicks dA dR n w).remoteRobots[k]? = some r' ∧
        r'.positionX = r.positionX ∧ r'.positionY = r.positionY) ∧
    (∀ (dA dR : Nat → Bool) (w : MainWindow) (k : Nat) (r : RemoteRobot),
      w.remoteRobots[k]? = some r → r.isMoving = true → r.orientation = 0 →
      ∃ r', (w.updateRobots dA dR).1.remoteRobots[k]? = some r' ∧
        r'.positionX = r.positionX + 0.1 * (r.speed : ℝ) ∧
        r'.positionY = r.positionY) := by
  constructor
  · intro dA dR n w k r hk hm
    obtain ⟨r', h', hp⟩ := runTicks_pose_notMoving dA dR n w k r hk hm
    exact ⟨r', h', hp.1, hp.2.1⟩
  · intro dA dR w k r hk hm h0
    exact updateRobots_moving w dA dR k r hk hm h0

/-- Witness for C5: the stationary sample robot sits still over three
ticks, and the same robot after moveForward advances by ten percent of its
speed 5 along the positive x axis in one tick. -/
theorem c5_moving_flag_gates_remote_motion_witness :
    (∃ r', (runTicks (fun _ _ => false) (fun _ _ => false) 3
        idleScene).remoteRobots[0]? = some r' ∧
      r'.positionX = idleRobot.positionX ∧
      r'.positionY = idleRobot.positionY) ∧
    (∃ r', ((movingScene.updateRobots (fun _ => false)
        (fun _ => false)).1).remoteRobots[0]? = some r' ∧
      r'.positionX = movingRobot.positionX + 0.1 * (movingRobot.speed : ℝ) ∧
      r'.positionY = movingRobot.positionY) :=
  ⟨c5_moving_flag_gates_remote_motion.1 (fun _ _ => false) (fun _ _ => false)
      3 idleScene 0 idleRobot rfl rfl,
   c5_moving_flag_gates_remote_motion.2 (fun _ => false) (fun _ => false)
      movingScene 0 movingRobot rfl rfl rfl⟩

/-! ### Claim C9 -/

/-- C9: on a scene whose single remote robot holds a RotateRight intent,
is selected, and the timer runs, one tick leaves that robot with its
rotation intent still set to RotateRight and its orientation unchanged at
0: the scheduler re-invokes the user-interface rotation slot (which merely
re-issues the intent-setting command to the selected robot) instead of
adjusting the intent holder by a step and resetting its intent to
NoRotation. -/
theorem c9_rotation_intent_never_consumed :
    ((intentScene.updateRobots (fun _ => false)
          (fun _ => false)).1.remoteRobots[0]?).map
        RemoteRobot.rotationDirection = some RotationDirection.RotateRight ∧
    ((intentScene.updateRobots (fun _ => false)
          (fun _ => false)).1.remoteRobots[0]?).map
        RemoteRobot.orientation = some 0 ∧
    intentRobot.rotationDirection = RotationDirection.RotateRight := by
  exact ⟨by decide, by decide, rfl⟩

end RobotSim
